import Mathlib

/-!
Shallow embedding of the MANAGING-LIBRARY Express/MongoDB backend.

Each definition mirrors one function of the source tree: the Mongoose
models (User.model.js, Book.model.js, Member.model.js), the auth
middleware (auth.middleware.js), the auth controller (register, login,
profile, user management), the books controller (create, list, get,
approve, reject, update, delete) and the members controller.

Persistent state is a record of three lists (users, books, members).
MongoDB ObjectIds are modelled as natural numbers; a request parameter
that may fail Mongoose casting (CastError) is an inductive that is
either a valid id or malformed.  The jwt and bcrypt libraries are
external collaborators: jwt.sign with a 30 day expiry window is
modelled as a transparent payload carrying the user id, the issue time
and the expiry time, and bcrypt hashing is modelled as an injective
tagging function, since no claim depends on the hash values themselves.
-/

namespace LibraryMS

/-- Roles of authenticated users, the role enum of User.model.js. -/
inductive Role where
  | admin
  | member
  deriving DecidableEq, Repr

/-- Approval status of a book, the approvalStatus enum of Book.model.js. -/
inductive ApprovalStatus where
  | pending
  | approved
  | rejected
  deriving DecidableEq, Repr

/-- A stored user document (User.model.js).  The password field holds the
bcrypt hash produced by the pre-save hook. -/
structure User where
  id : Nat
  name : String
  email : String
  password : String
  role : Role
  createdAt : Nat
  deriving DecidableEq, Repr

/-- A stored book document (Book.model.js). -/
structure Book where
  id : Nat
  title : String
  author : String
  ISBN : String
  category : String
  availability : Bool
  approvalStatus : ApprovalStatus
  requestedBy : Nat
  reviewedBy : Option Nat
  reviewedAt : Option Nat
  createdAt : Nat
  deriving DecidableEq, Repr

/-- A stored member document (Member.model.js).  borrowedBooks is the
list of referenced Book ObjectIds. -/
structure Member where
  id : Nat
  name : String
  email : String
  membershipId : String
  role : Role
  borrowedBooks : List Nat
  createdAt : Nat
  deriving DecidableEq, Repr

/-- The three MongoDB collections used by the backend. -/
structure DB where
  users : List User
  books : List Book
  members : List Member
  deriving DecidableEq, Repr

/-- Model of Model.findById on the users collection. -/
def findUser (db : DB) (id : Nat) : Option User :=
  db.users.find? (fun u => u.id == id)

/-- Model of Model.findById on the books collection. -/
def findBook (db : DB) (id : Nat) : Option Book :=
  db.books.find? (fun b => b.id == id)

/-- Model of Model.findById on the members collection. -/
def findMember (db : DB) (id : Nat) : Option Member :=
  db.members.find? (fun m => m.id == id)

/-- A route parameter that Mongoose casts to an ObjectId: either a valid
id, or a malformed string whose cast raises CastError in the source. -/
inductive ReqId where
  | valid (id : Nat)
  | malformed
  deriving DecidableEq, Repr

/-- Model of a signed JWT issued by generateToken in auth.controller.js:
jwt.sign carries the user id, and the 30 day expiresIn window fixes the
expiry relative to the issue time. -/
structure Token where
  id : Nat
  iat : Nat
  exp : Nat
  deriving DecidableEq, Repr

/-- The 30 day token validity window of generateToken ("30d"), in seconds. -/
def thirtyDaysInSeconds : Nat := 30 * 24 * 60 * 60

/-- Model of generateToken in auth.controller.js: sign the user id with
a 30 day expiry. -/
def generateToken (id : Nat) (now : Nat) : Token :=
  { id := id, iat := now, exp := now + thirtyDaysInSeconds }

/-- Model of jwt.verify: a token decodes to its payload id while the
current time is before its expiry, and fails otherwise. -/
def verifyToken (t : Token) (now : Nat) : Option Nat :=
  if now < t.exp then some t.id else none

/-- Model of bcrypt hashing from the pre-save hook of User.model.js.
The hash function is external; only the facts that it is deterministic
and distinct from the plain text matter here. -/
def hashPassword (p : String) : String :=
  "bcrypt$2b$10$" ++ p

/-- Model of the protect middleware of auth.middleware.js: extract and
verify the bearer token, then re-resolve the principal from the users
collection; any failure is a 401. -/
def protect (db : DB) (tok : Option Token) (now : Nat) : Except Nat User :=
  match tok with
  | none => Except.error 401
  | some t =>
    match verifyToken t now with
    | none => Except.error 401
    | some uid =>
      match findUser db uid with
      | none => Except.error 401
      | some u => Except.ok u

/-- Insert an element into a list that is sorted by decreasing key,
keeping the order; helper for the sort({ createdAt: -1 }) calls. -/
def insertByDesc (key : α → Nat) (x : α) : List α → List α
  | [] => [x]
  | y :: ys => if key y ≤ key x then x :: y :: ys else y :: insertByDesc key x ys

/-- Model of the Mongoose sort({ createdAt: -1 }) query modifier as an
insertion sort by decreasing key. -/
def sortByDesc (key : α → Nat) : List α → List α
  | [] => []
  | x :: xs => insertByDesc key x (sortByDesc key xs)

/-- Model of the trim sanitiser applied by express-validator and by the
Mongoose trim option: drop leading and trailing whitespace. -/
def trimmed (s : String) : String :=
  String.mk (((s.data.dropWhile Char.isWhitespace).reverse.dropWhile
    Char.isWhitespace).reverse)

/-- Model of the Mongoose lowercase option applied to stored emails. -/
def lowered (s : String) : String :=
  String.mk (s.data.map Char.toLower)

/-- Request body for book creation and update (title, author, ISBN,
category, availability), plus the approvalStatus key that the schema
recognises: createBook spreads the whole req.body into Book.create, and
bookValidation in books.routes.js places no rule on approvalStatus. -/
structure BookBody where
  title : String
  author : String
  ISBN : String
  category : String
  availability : Option Bool
  approvalStatus : Option ApprovalStatus
  deriving DecidableEq, Repr

/-- Model of the bookValidation chain of books.routes.js: the four
string fields must be nonempty after trimming; availability is typed
Boolean, and no rule constrains any other key. -/
def bookValidation (b : BookBody) : Bool :=
  !(trimmed b.title == "") && !(trimmed b.author == "") &&
    !(trimmed b.ISBN == "") && !(trimmed b.category == "")

/-- Whether some stored book already holds the given ISBN; model of the
unique index on ISBN whose violation raises error code 11000. -/
def isbnTaken (db : DB) (isbn : String) : Bool :=
  db.books.any (fun b => b.ISBN == isbn)

/-- Common result shape of the books controller handlers: HTTP status,
optional message, optional book payload, and the resulting state. -/
structure BookOut where
  status : Nat
  message : Option String
  book : Option Book
  db : DB
  deriving DecidableEq, Repr

/-- The document stored by Book.create in createBook: the spread body
with requestedBy overridden to the caller id, and the schema defaults
for the keys the body does not supply. -/
def createdBook (callerId : Nat) (body : BookBody) (newId : Nat) (now : Nat) :
    Book :=
  { id := newId
    title := trimmed body.title
    author := trimmed body.author
    ISBN := trimmed body.ISBN
    category := trimmed body.category
    availability := body.availability.getD true
    approvalStatus := body.approvalStatus.getD ApprovalStatus.pending
    requestedBy := callerId
    reviewedBy := none
    reviewedAt := none
    createdAt := now }

/-- Model of createBook (books controller): after validation the whole
body is spread into Book.create with requestedBy overridden to the
caller id; a duplicate ISBN surfaces as a 400.  The schema defaults
availability to true and approvalStatus to pending only when the body
does not supply them. -/
def createBook (db : DB) (callerId : Nat) (body : BookBody) (newId : Nat)
    (now : Nat) : BookOut :=
  if bookValidation body = false then
    { status := 400, message := none, book := none, db := db }
  else if isbnTaken db (trimmed body.ISBN) then
    { status := 400, message := some "Book with this ISBN already exists",
      book := none, db := db }
  else
    let b := createdBook callerId body newId now
    { status := 201,
      message := some "Book request created successfully. Waiting for admin approval.",
      book := some b, db := { db with books := db.books ++ [b] } }

/-- Model of getBooks (books controller): admins receive every book,
other callers only the approved ones, both sorted newest first. -/
def getBooks (db : DB) (caller : User) : List Book :=
  if caller.role = Role.admin then
    sortByDesc (fun b => b.createdAt) db.books
  else
    sortByDesc (fun b => b.createdAt)
      (db.books.filter (fun b => b.approvalStatus == ApprovalStatus.approved))

/-- Model of getPendingBooks (books controller): every pending book,
sorted newest first. -/
def getPendingBooks (db : DB) : List Book :=
  sortByDesc (fun b => b.createdAt)
    (db.books.filter (fun b => b.approvalStatus == ApprovalStatus.pending))

/-- Model of getBook (books controller): CastError and a missing id both
map to 404; a non-admin asking for a non-approved book receives 403. -/
def getBook (db : DB) (p : ReqId) (caller : User) : BookOut :=
  match p with
  | ReqId.malformed =>
    { status := 404, message := some "Book not found", book := none, db := db }
  | ReqId.valid id =>
    match findBook db id with
    | none =>
      { status := 404, message := some "Book not found", book := none, db := db }
    | some b =>
      if caller.role ≠ Role.admin ∧ b.approvalStatus ≠ ApprovalStatus.approved then
        { status := 403,
          message := some "You do not have permission to view this book",
          book := none, db := db }
      else
        { status := 200, message := none, book := some b, db := db }

/-- Apply the review decision fields written by findByIdAndUpdate in
approveBook and rejectBook. -/
def decideBook (b : Book) (st : ApprovalStatus) (reviewerId : Nat) (now : Nat) :
    Book :=
  { b with
    approvalStatus := st
    reviewedBy := some reviewerId
    reviewedAt := some now }

/-- Model of findByIdAndUpdate with the review decision update document:
the matching book receives the new status, reviewer and timestamp. -/
def setBookDecision (books : List Book) (id : Nat) (st : ApprovalStatus)
    (reviewerId : Nat) (now : Nat) : List Book :=
  books.map (fun b => if b.id == id then decideBook b st reviewerId now else b)

/-- Model of approveBook (books controller): 404 when the id casts badly
or matches nothing; 400 when the book is already approved; otherwise the
status becomes approved with reviewer and timestamp recorded.  Note the
pre-check compares against approved, not against pending. -/
def approveBook (db : DB) (p : ReqId) (reviewerId : Nat) (now : Nat) : BookOut :=
  match p with
  | ReqId.malformed =>
    { status := 404, message := some "Book not found", book := none, db := db }
  | ReqId.valid id =>
    match findBook db id with
    | none =>
      { status := 404, message := some "Book not found", book := none, db := db }
    | some b =>
      if b.approvalStatus == ApprovalStatus.approved then
        { status := 400, message := some "Book is already approved",
          book := none, db := db }
      else
        let books := setBookDecision db.books id ApprovalStatus.approved reviewerId now
        { status := 200, message := some "Book approved successfully",
          book := some (decideBook b ApprovalStatus.approved reviewerId now),
          db := { db with books := books } }

/-- Model of rejectBook (books controller): symmetric to approveBook;
the pre-check compares against rejected, not against pending. -/
def rejectBook (db : DB) (p : ReqId) (reviewerId : Nat) (now : Nat) : BookOut :=
  match p with
  | ReqId.malformed =>
    { status := 404, message := some "Book not found", book := none, db := db }
  | ReqId.valid id =>
    match findBook db id with
    | none =>
      { status := 404, message := some "Book not found", book := none, db := db }
    | some b =>
      if b.approvalStatus == ApprovalStatus.rejected then
        { status := 400, message := some "Book is already rejected",
          book := none, db := db }
      else
        let books := setBookDecision db.books id ApprovalStatus.rejected reviewerId now
        { status := 200, message := some "Book rejected successfully",
          book := some (decideBook b ApprovalStatus.rejected reviewerId now),
          db := { db with books := books } }

/-- Merge an update body onto a stored book, the findByIdAndUpdate
semantics used by updateBook: provided keys overwrite, absent optional
keys keep the stored value. -/
def applyBookUpdate (b : Book) (body : BookBody) : Book :=
  { b with
    title := trimmed body.title
    author := trimmed body.author
    ISBN := trimmed body.ISBN
    category := trimmed body.category
    availability := body.availability.getD b.availability
    approvalStatus := body.approvalStatus.getD b.approvalStatus }

/-- Model of updateBook (books controller): validation, existence check,
duplicate-ISBN check against the other documents, then the update. -/
def updateBook (db : DB) (p : ReqId) (body : BookBody) : BookOut :=
  if bookValidation body = false then
    { status := 400, message := none, book := none, db := db }
  else
    match p with
    | ReqId.malformed =>
      { status := 404, message := some "Book not found", book := none, db := db }
    | ReqId.valid id =>
      match findBook db id with
      | none =>
        { status := 404, message := some "Book not found", book := none, db := db }
      | some b =>
        if db.books.any (fun c => !(c.id == id) && (c.ISBN == trimmed body.ISBN)) then
          { status := 400, message := some "Book with this ISBN already exists",
            book := none, db := db }
        else
          { status := 200, message := some "Book updated successfully",
            book := some (applyBookUpdate b body),
            db := { db with
              books := db.books.map
                (fun c => if c.id == id then applyBookUpdate c body else c) } }

/-- Model of deleteBook (books controller): existence check, then
findByIdAndDelete removes the matching document; nothing else changes. -/
def deleteBook (db : DB) (p : ReqId) : BookOut :=
  match p with
  | ReqId.malformed =>
    { status := 404, message := some "Book not found", book := none, db := db }
  | ReqId.valid id =>
    match findBook db id with
    | none =>
      { status := 404, message := some "Book not found", book := none, db := db }
    | some _ =>
      { status := 200, message := some "Book deleted successfully", book := none,
        db := { db with books := db.books.filter (fun b => !(b.id == id)) } }

/-- Whether a character is whitespace for the purpose of the email
format check of User.model.js. -/
def nonSpaceChar (c : Char) : Bool :=
  !c.isWhitespace

/-- Model of the email format regex of User.model.js, which requires a
nonempty run of non-whitespace, an at sign, another nonempty run, a dot,
and a final nonempty run; equivalently the string is whitespace-free and
some at sign has a nonempty prefix before it and some dot strictly after
it with at least one trailing character. -/
def emailFormatOk (s : String) : Bool :=
  let cs := s.toList
  cs.all nonSpaceChar &&
    (List.range cs.length).any (fun i =>
      (cs.getD i ' ' == '@') && (1 ≤ i) &&
        (List.range cs.length).any (fun j =>
          (cs.getD j ' ' == '.') && (i + 2 ≤ j) && (j + 2 ≤ cs.length)))

/-- Request body of POST /api/auth/register; the optional role is typed
by the isIn rule of registerValidation. -/
structure RegisterBody where
  name : String
  email : String
  password : String
  role : Option Role
  deriving DecidableEq, Repr

/-- Model of the registerValidation chain of auth.routes.js: trimmed
name of length at least 2, valid email, password of length at least 6;
the optional role is constrained only to the two enum values. -/
def registerValidation (b : RegisterBody) : Bool :=
  (2 ≤ (trimmed b.name).length) && emailFormatOk (trimmed b.email) &&
    (6 ≤ b.password.length)

/-- Whether some stored user already holds the given email string;
used both for the explicit findOne pre-check of register and for the
unique index on the lowercased stored email. -/
def emailTaken (db : DB) (email : String) : Bool :=
  db.users.any (fun u => u.email == email)

/-- Result shape of the register handler: HTTP status, optional message,
optional token and user payload, and the resulting state. -/
structure RegisterOut where
  status : Nat
  message : Option String
  token : Option Token
  user : Option User
  db : DB
  deriving DecidableEq, Repr

/-- The document stored by User.create in register: sanitised name,
lowercased stored email, the bcrypt hash from the pre-save hook, and the
role defaulted to Member when the body omits it. -/
def registeredUser (body : RegisterBody) (newId : Nat) (now : Nat) : User :=
  { id := newId
    name := trimmed body.name
    email := lowered (trimmed body.email)
    password := hashPassword body.password
    role := body.role.getD Role.member
    createdAt := now }

/-- Model of register (auth.controller.js): validation, the findOne
duplicate pre-check on the raw (sanitised) email, the unique index on
the lowercased stored email surfacing as code 11000, then User.create
with the pre-save bcrypt hash, role defaulted to Member, and a fresh
30 day token.  The route is public: no authentication gates it and the
requested role is used as given. -/
def register (db : DB) (body : RegisterBody) (newId : Nat) (now : Nat) :
    RegisterOut :=
  if registerValidation body = false then
    { status := 400, message := none, token := none, user := none, db := db }
  else if emailTaken db (trimmed body.email) then
    { status := 400, message := some "User already exists with this email",
      token := none, user := none, db := db }
  else if emailTaken db (lowered (trimmed body.email)) then
    { status := 400, message := some "User already exists with this email",
      token := none, user := none, db := db }
  else
    let u := registeredUser body newId now
    { status := 201, message := none, token := some (generateToken newId now),
      user := some u, db := { db with users := db.users ++ [u] } }

/-- Model of the loginValidation chain of auth.routes.js. -/
def loginValidation (email password : String) : Bool :=
  emailFormatOk (trimmed email) && !(password == "")

/-- Result shape of the login handler. -/
structure LoginOut where
  status : Nat
  message : Option String
  token : Option Token
  user : Option User
  deriving DecidableEq, Repr

/-- Model of login (auth.controller.js): find the user by email, compare
the bcrypt hash, and answer 401 with "Invalid credentials" on either
failure, or a fresh token on success. -/
def login (db : DB) (email password : String) (now : Nat) : LoginOut :=
  if loginValidation email password = false then
    { status := 400, message := none, token := none, user := none }
  else
    match db.users.find? (fun u => u.email == trimmed email) with
    | none =>
      { status := 401, message := some "Invalid credentials", token := none,
        user := none }
    | some u =>
      if u.password == hashPassword password then
        { status := 200, message := none, token := some (generateToken u.id now),
          user := some u }
      else
        { status := 401, message := some "Invalid credentials", token := none,
          user := none }

/-- Model of getAllUsers (auth.controller.js): every user, sorted newest
first; the password column is excluded at serialisation. -/
def getAllUsers (db : DB) : List User :=
  sortByDesc (fun u => u.createdAt) db.users

/-- Model of getUserById (auth.controller.js): CastError and a missing
id both map to a 404. -/
def getUserById (db : DB) (p : ReqId) : Option User :=
  match p with
  | ReqId.malformed => none
  | ReqId.valid id => findUser db id

/-- Result shape of the user management handlers. -/
structure UserOut where
  status : Nat
  message : Option String
  user : Option User
  db : DB
  deriving DecidableEq, Repr

/-- Model of updateUserRole (auth.controller.js): 404 on cast failure or
missing user, 400 when an admin targets themselves, else the stored role
is replaced. -/
def updateUserRole (db : DB) (caller : User) (p : ReqId) (role : Role) : UserOut :=
  match p with
  | ReqId.malformed =>
    { status := 404, message := some "User not found", user := none, db := db }
  | ReqId.valid id =>
    match findUser db id with
    | none =>
      { status := 404, message := some "User not found", user := none, db := db }
    | some u =>
      if u.id == caller.id then
        { status := 400, message := some "You cannot change your own role",
          user := none, db := db }
      else
        let users := db.users.map (fun v => if v.id == id then { v with role := role } else v)
        { status := 200, message := none, user := some { u with role := role },
          db := { db with users := users } }

/-- Model of deleteUser (auth.controller.js): 404 on cast failure or
missing user, 400 when an admin targets themselves, else the user is
removed. -/
def deleteUser (db : DB) (caller : User) (p : ReqId) : UserOut :=
  match p with
  | ReqId.malformed =>
    { status := 404, message := some "User not found", user := none, db := db }
  | ReqId.valid id =>
    match findUser db id with
    | none =>
      { status := 404, message := some "User not found", user := none, db := db }
    | some u =>
      if u.id == caller.id then
        { status := 400, message := some "You cannot delete your own account",
          user := none, db := db }
      else
        let users := db.users.filter (fun v => !(v.id == id))
        { status := 200, message := some "User deleted successfully", user := none,
          db := { db with users := users } }

/-- Request body of the member routes; the optional role and the list of
borrowed book ids follow memberValidation in members.routes.js. -/
structure MemberBody where
  name : String
  email : String
  membershipId : String
  role : Option Role
  borrowedBooks : Option (List Nat)
  deriving DecidableEq, Repr

/-- Model of the memberValidation chain of members.routes.js. -/
def memberValidation (b : MemberBody) : Bool :=
  (2 ≤ (trimmed b.name).length) && emailFormatOk (trimmed b.email) &&
    !(trimmed b.membershipId == "")

/-- Whether some stored member already holds the given email string. -/
def memberEmailTaken (db : DB) (email : String) : Bool :=
  db.members.any (fun m => m.email == email)

/-- Whether some stored member already holds the given membership id. -/
def membershipIdTaken (db : DB) (mid : String) : Bool :=
  db.members.any (fun m => m.membershipId == mid)

/-- Result shape of the member handlers. -/
structure MemberOut where
  status : Nat
  message : Option String
  member : Option Member
  db : DB
  deriving DecidableEq, Repr

/-- Model of createMember (members.controller.js): validation, the
unique indexes on lowercased email and on membershipId surfacing as
code 11000 naming the offending field, then Member.create with role
defaulted to Member and borrowedBooks defaulted to empty. -/
def createMember (db : DB) (body : MemberBody) (newId : Nat) (now : Nat) :
    MemberOut :=
  if memberValidation body = false then
    { status := 400, message := none, member := none, db := db }
  else if memberEmailTaken db (lowered (trimmed body.email)) then
    { status := 400, message := some "Member with this email already exists",
      member := none, db := db }
  else if membershipIdTaken db (trimmed body.membershipId) then
    { status := 400, message := some "Member with this membershipId already exists",
      member := none, db := db }
  else
    let m : Member :=
      { id := newId, name := trimmed body.name, email := lowered (trimmed body.email),
        membershipId := trimmed body.membershipId, role := body.role.getD Role.member,
        borrowedBooks := body.borrowedBooks.getD [], createdAt := now }
    { status := 201, message := none, member := some m,
      db := { db with members := db.members ++ [m] } }

/-- Model of getMembers (members.controller.js): every member, sorted
newest first. -/
def getMembers (db : DB) : List Member :=
  sortByDesc (fun m => m.createdAt) db.members

/-- Model of getMember (members.controller.js): CastError and a missing
id both map to a 404. -/
def getMember (db : DB) (p : ReqId) : Option Member :=
  match p with
  | ReqId.malformed => none
  | ReqId.valid id => findMember db id

/-- Merge an update body onto a stored member, the findByIdAndUpdate
semantics used by updateMember. -/
def applyMemberUpdate (m : Member) (body : MemberBody) : Member :=
  { m with
    name := trimmed body.name
    email := lowered (trimmed body.email)
    membershipId := trimmed body.membershipId
    role := body.role.getD m.role
    borrowedBooks := body.borrowedBooks.getD m.borrowedBooks }

/-- Model of updateMember (members.controller.js): validation, existence
check, duplicate checks against the other documents, then the update. -/
def updateMember (db : DB) (p : ReqId) (body : MemberBody) : MemberOut :=
  if memberValidation body = false then
    { status := 400, message := none, member := none, db := db }
  else
    match p with
    | ReqId.malformed =>
      { status := 404, message := some "Member not found", member := none, db := db }
    | ReqId.valid id =>
      match findMember db id with
      | none =>
        { status := 404, message := some "Member not found", member := none, db := db }
      | some m =>
        if db.members.any (fun n => !(n.id == id) && (n.email == lowered (trimmed body.email))) then
          { status := 400, message := some "Member with this email already exists",
            member := none, db := db }
        else if db.members.any (fun n => !(n.id == id) && (n.membershipId == trimmed body.membershipId)) then
          { status := 400, message := some "Member with this membershipId already exists",
            member := none, db := db }
        else
          let members := db.members.map (fun n => if n.id == id then applyMemberUpdate n body else n)
          { status := 200, message := none, member := some (applyMemberUpdate m body),
            db := { db with members := members } }

/-- Model of deleteMember (members.controller.js): existence check, then
findByIdAndDelete removes the matching document; nothing else changes. -/
def deleteMember (db : DB) (p : ReqId) : MemberOut :=
  match p with
  | ReqId.malformed =>
    { status := 404, message := some "Member not found", member := none, db := db }
  | ReqId.valid id =>
    match findMember db id with
    | none =>
      { status := 404, message := some "Member not found", member := none, db := db }
    | some _ =>
      { status := 200, message := some "Member deleted successfully", member := none,
        db := { db with members := db.members.filter (fun m => !(m.id == id)) } }

/-- Model of the protect then authorize Admin middleware chain placed in
front of every admin-only route: an authentication failure is a 401, a
caller whose re-resolved role is not Admin is a 403 and the handler is
never reached, otherwise the handler runs as the resolved user. -/
def adminGate (db : DB) (tok : Option Token) (now : Nat)
    (handler : User → Nat × DB) : Nat × DB :=
  match protect db tok now with
  | Except.error s => (s, db)
  | Except.ok u => if u.role = Role.admin then handler u else (403, db)

/-- Route PUT /api/books/:id composed from books.routes.js. -/
def updateBookRoute (db : DB) (tok : Option Token) (now : Nat) (p : ReqId)
    (body : BookBody) : Nat × DB :=
  adminGate db tok now (fun _ => ((updateBook db p body).status, (updateBook db p body).db))

/-- Route DELETE /api/books/:id composed from books.routes.js. -/
def deleteBookRoute (db : DB) (tok : Option Token) (now : Nat) (p : ReqId) :
    Nat × DB :=
  adminGate db tok now (fun _ => ((deleteBook db p).status, (deleteBook db p).db))

/-- Route PUT /api/books/:id/approve composed from books.routes.js. -/
def approveBookRoute (db : DB) (tok : Option Token) (now : Nat) (p : ReqId) :
    Nat × DB :=
  adminGate db tok now (fun u => ((approveBook db p u.id now).status, (approveBook db p u.id now).db))

/-- Route PUT /api/books/:id/reject composed from books.routes.js. -/
def rejectBookRoute (db : DB) (tok : Option Token) (now : Nat) (p : ReqId) :
    Nat × DB :=
  adminGate db tok now (fun u => ((rejectBook db p u.id now).status, (rejectBook db p u.id now).db))

/-- Route POST /api/members composed from members.routes.js. -/
def createMemberRoute (db : DB) (tok : Option Token) (now : Nat)
    (body : MemberBody) (newId : Nat) : Nat × DB :=
  adminGate db tok now (fun _ => ((createMember db body newId now).status, (createMember db body newId now).db))

/-- Route PUT /api/members/:id composed from members.routes.js. -/
def updateMemberRoute (db : DB) (tok : Option Token) (now : Nat) (p : ReqId)
    (body : MemberBody) : Nat × DB :=
  adminGate db tok now (fun _ => ((updateMember db p body).status, (updateMember db p body).db))

/-- Route DELETE /api/members/:id composed from members.routes.js. -/
def deleteMemberRoute (db : DB) (tok : Option Token) (now : Nat) (p : ReqId) :
    Nat × DB :=
  adminGate db tok now (fun _ => ((deleteMember db p).status, (deleteMember db p).db))

/-- Route PUT /api/auth/users/:id/role composed from auth.routes.js. -/
def updateUserRoleRoute (db : DB) (tok : Option Token) (now : Nat) (p : ReqId)
    (role : Role) : Nat × DB :=
  adminGate db tok now (fun u => ((updateUserRole db u p role).status, (updateUserRole db u p role).db))

/-- Route DELETE /api/auth/users/:id composed from auth.routes.js. -/
def deleteUserRoute (db : DB) (tok : Option Token) (now : Nat) (p : ReqId) :
    Nat × DB :=
  adminGate db tok now (fun u => ((deleteUser db u p).status, (deleteUser db u p).db))

mutual

/-- JSON values, used to model the res.json payloads of every handler. -/
inductive JVal where
  | jnull
  | jbool (b : Bool)
  | jnum (n : Nat)
  | jstr (s : String)
  | jarr (xs : JList)
  | jobj (fs : JObj)
  deriving DecidableEq, Repr

/-- A JSON array, spelled out so that recursion over JSON is mutual
structural recursion. -/
inductive JList where
  | nil
  | cons (hd : JVal) (tl : JList)
  deriving DecidableEq, Repr

/-- A JSON object as an ordered list of key and value pairs. -/
inductive JObj where
  | nil
  | cons (key : String) (val : JVal) (tl : JObj)
  deriving DecidableEq, Repr

end

/-- Build a JSON array from a Lean list of values. -/
def JList.ofList : List JVal → JList
  | [] => JList.nil
  | x :: xs => JList.cons x (JList.ofList xs)

/-- Build a JSON object from a Lean list of key and value pairs. -/
def JObj.ofList : List (String × JVal) → JObj
  | [] => JObj.nil
  | kv :: tl => JObj.cons kv.1 kv.2 (JObj.ofList tl)

mutual

/-- Whether a key occurs anywhere in a JSON value, at any depth. -/
def JVal.hasKey (k : String) : JVal → Bool
  | JVal.jobj fs => JObj.hasKey k fs
  | JVal.jarr xs => JList.hasKey k xs
  | _ => false

/-- Whether a key occurs anywhere in some element of a JSON array. -/
def JList.hasKey (k : String) : JList → Bool
  | JList.nil => false
  | JList.cons x xs => JVal.hasKey k x || JList.hasKey k xs

/-- Whether a key occurs in a JSON object, at the top or below. -/
def JObj.hasKey (k : String) : JObj → Bool
  | JObj.nil => false
  | JObj.cons key v tl => key == k || JVal.hasKey k v || JObj.hasKey k tl

end

/-- Render a role the way the enum strings appear on the wire. -/
def roleString : Role → String
  | Role.admin => "Admin"
  | Role.member => "Member"

/-- Render an approval status the way the enum strings appear on the wire. -/
def statusString : ApprovalStatus → String
  | ApprovalStatus.pending => "pending"
  | ApprovalStatus.approved => "approved"
  | ApprovalStatus.rejected => "rejected"

/-- Opaque wire encoding of a signed token. -/
def tokenString (t : Token) : String :=
  toString t.id ++ "." ++ toString t.iat ++ "." ++ toString t.exp

/-- Render an optional ObjectId reference that was not populated. -/
def optIdJson : Option Nat → JVal
  | none => JVal.jnull
  | some n => JVal.jnum n

/-- Render an optional timestamp. -/
def optTimeJson : Option Nat → JVal
  | none => JVal.jnull
  | some n => JVal.jnum n

/-- The user literal returned by register and login in
auth.controller.js: id, name, email and role only. -/
def authUserJson (u : User) : JVal :=
  JVal.jobj (JObj.ofList
    [("id", JVal.jnum u.id), ("name", JVal.jstr u.name),
      ("email", JVal.jstr u.email), ("role", JVal.jstr (roleString u.role))])

/-- The user literal returned by getProfile in auth.controller.js. -/
def profileUserJson (u : User) : JVal :=
  JVal.jobj (JObj.ofList
    [("id", JVal.jnum u.id), ("name", JVal.jstr u.name),
      ("email", JVal.jstr u.email), ("role", JVal.jstr (roleString u.role)),
      ("createdAt", JVal.jnum u.createdAt)])

/-- A user document serialised after select excluded the password, as in
getAllUsers and getUserById; every stored column except the password. -/
def userNoPasswordJson (u : User) : JVal :=
  JVal.jobj (JObj.ofList
    [("_id", JVal.jnum u.id), ("name", JVal.jstr u.name),
      ("email", JVal.jstr u.email), ("role", JVal.jstr (roleString u.role)),
      ("createdAt", JVal.jnum u.createdAt)])

/-- A populated user reference, the populate projection used by the book
handlers: name and email, plus role when requested by getPendingBooks;
a dangling reference populates to null. -/
def userRefJson (db : DB) (withRole : Bool) (id : Nat) : JVal :=
  match findUser db id with
  | none => JVal.jnull
  | some u =>
    JVal.jobj (JObj.ofList
      ([("_id", JVal.jnum u.id), ("name", JVal.jstr u.name),
        ("email", JVal.jstr u.email)] ++
        (if withRole then [("role", JVal.jstr (roleString u.role))] else [])))

/-- A book document as serialised by the books controller, with the
requestedBy reference populated and the reviewedBy reference populated
only on the paths that ask for it. -/
def bookJson (db : DB) (reqWithRole : Bool) (popReviewer : Bool) (b : Book) : JVal :=
  JVal.jobj (JObj.ofList
    [("_id", JVal.jnum b.id), ("title", JVal.jstr b.title),
      ("author", JVal.jstr b.author), ("ISBN", JVal.jstr b.ISBN),
      ("category", JVal.jstr b.category), ("availability", JVal.jbool b.availability),
      ("approvalStatus", JVal.jstr (statusString b.approvalStatus)),
      ("requestedBy", userRefJson db reqWithRole b.requestedBy),
      ("reviewedBy",
        if popReviewer then
          (match b.reviewedBy with
            | none => JVal.jnull
            | some r => userRefJson db false r)
        else optIdJson b.reviewedBy),
      ("reviewedAt", optTimeJson b.reviewedAt),
      ("createdAt", JVal.jnum b.createdAt)])

/-- A populated borrowedBooks entry, the projection of the members
controller: title, author, ISBN and, on the single-member read,
availability; a dangling reference populates to null. -/
def borrowedBookJson (db : DB) (withAvail : Bool) (id : Nat) : JVal :=
  match findBook db id with
  | none => JVal.jnull
  | some b =>
    JVal.jobj (JObj.ofList
      ([("_id", JVal.jnum b.id), ("title", JVal.jstr b.title),
        ("author", JVal.jstr b.author), ("ISBN", JVal.jstr b.ISBN)] ++
        (if withAvail then [("availability", JVal.jbool b.availability)] else [])))

/-- A member document with borrowedBooks populated. -/
def memberJson (db : DB) (withAvail : Bool) (m : Member) : JVal :=
  JVal.jobj (JObj.ofList
    [("_id", JVal.jnum m.id), ("name", JVal.jstr m.name),
      ("email", JVal.jstr m.email), ("membershipId", JVal.jstr m.membershipId),
      ("role", JVal.jstr (roleString m.role)),
      ("borrowedBooks", JVal.jarr (JList.ofList (m.borrowedBooks.map (borrowedBookJson db withAvail)))),
      ("createdAt", JVal.jnum m.createdAt)])

/-- A member document without population, as returned by createMember. -/
def memberRawJson (m : Member) : JVal :=
  JVal.jobj (JObj.ofList
    [("_id", JVal.jnum m.id), ("name", JVal.jstr m.name),
      ("email", JVal.jstr m.email), ("membershipId", JVal.jstr m.membershipId),
      ("role", JVal.jstr (roleString m.role)),
      ("borrowedBooks", JVal.jarr (JList.ofList (m.borrowedBooks.map JVal.jnum))),
      ("createdAt", JVal.jnum m.createdAt)])

/-- The generic failure envelope with a message. -/
def errorJson (msg : String) : JVal :=
  JVal.jobj (JObj.ofList
    [("success", JVal.jbool false), ("message", JVal.jstr msg)])

/-- The generic list envelope with success, count and data. -/
def listJson (items : List JVal) : JVal :=
  JVal.jobj (JObj.ofList
    [("success", JVal.jbool true), ("count", JVal.jnum items.length),
      ("data", JVal.jarr (JList.ofList items))])

/-- The wire response of POST /api/auth/register. -/
def registerResponse (db : DB) (body : RegisterBody) (newId : Nat) (now : Nat) : JVal :=
  let r := register db body newId now
  match r.user, r.token with
  | some u, some t =>
    JVal.jobj (JObj.ofList
      [("success", JVal.jbool true), ("token", JVal.jstr (tokenString t)),
        ("user", authUserJson u)])
  | _, _ => errorJson (r.message.getD "")

/-- The wire response of POST /api/auth/login. -/
def loginResponse (db : DB) (email password : String) (now : Nat) : JVal :=
  let r := login db email password now
  match r.user, r.token with
  | some u, some t =>
    JVal.jobj (JObj.ofList
      [("success", JVal.jbool true), ("token", JVal.jstr (tokenString t)),
        ("user", authUserJson u)])
  | _, _ => errorJson (r.message.getD "")

/-- The wire response of GET /api/auth/profile. -/
def profileResponse (u : User) : JVal :=
  JVal.jobj (JObj.ofList
    [("success", JVal.jbool true), ("user", profileUserJson u)])

/-- The wire response of GET /api/auth/users. -/
def getAllUsersResponse (db : DB) : JVal :=
  listJson ((getAllUsers db).map userNoPasswordJson)

/-- The wire response of GET /api/auth/users/:id. -/
def getUserByIdResponse (db : DB) (p : ReqId) : JVal :=
  match getUserById db p with
  | none => errorJson "User not found"
  | some u =>
    JVal.jobj (JObj.ofList
      [("success", JVal.jbool true), ("data", userNoPasswordJson u)])

/-- The wire response of PUT /api/auth/users/:id/role. -/
def updateUserRoleResponse (db : DB) (caller : User) (p : ReqId) (role : Role) : JVal :=
  let r := updateUserRole db caller p role
  match r.user with
  | some u =>
    JVal.jobj (JObj.ofList
      [("success", JVal.jbool true),
        ("message", JVal.jstr ("User role updated to " ++ roleString role ++ " successfully")),
        ("data", authUserJson u)])
  | none => errorJson (r.message.getD "")

/-- The wire response of DELETE /api/auth/users/:id. -/
def deleteUserResponse (db : DB) (caller : User) (p : ReqId) : JVal :=
  let r := deleteUser db caller p
  if r.status == 200 then
    JVal.jobj (JObj.ofList
      [("success", JVal.jbool true), ("message", JVal.jstr "User deleted successfully")])
  else errorJson (r.message.getD "")

/-- The wire response of GET /api/books: populated requestedBy for every
caller, populated reviewedBy only on the admin path. -/
def getBooksResponse (db : DB) (caller : User) : JVal :=
  listJson ((getBooks db caller).map (bookJson db false (caller.role == Role.admin)))

/-- The wire response of GET /api/books/pending, whose requestedBy
projection also carries the role. -/
def getPendingBooksResponse (db : DB) : JVal :=
  listJson ((getPendingBooks db).map (bookJson db true false))

/-- The wire response of GET /api/books/:id. -/
def getBookResponse (db : DB) (p : ReqId) (caller : User) : JVal :=
  let r := getBook db p caller
  match r.book with
  | some b =>
    JVal.jobj (JObj.ofList
      [("success", JVal.jbool true), ("data", bookJson db false true b)])
  | none => errorJson (r.message.getD "")

/-- The wire response of POST /api/books. -/
def createBookResponse (db : DB) (callerId : Nat) (body : BookBody)
    (newId : Nat) (now : Nat) : JVal :=
  let r := createBook db callerId body newId now
  match r.book with
  | some b =>
    JVal.jobj (JObj.ofList
      [("success", JVal.jbool true),
        ("message", JVal.jstr (r.message.getD "")),
        ("data", bookJson r.db false false b)])
  | none => errorJson (r.message.getD "")

/-- The wire response of PUT /api/books/:id/approve. -/
def approveBookResponse (db : DB) (p : ReqId) (reviewerId : Nat) (now : Nat) : JVal :=
  let r := approveBook db p reviewerId now
  match r.book with
  | some b =>
    JVal.jobj (JObj.ofList
      [("success", JVal.jbool true),
        ("message", JVal.jstr (r.message.getD "")),
        ("data", bookJson r.db false true b)])
  | none => errorJson (r.message.getD "")

/-- The wire response of PUT /api/books/:id/reject. -/
def rejectBookResponse (db : DB) (p : ReqId) (reviewerId : Nat) (now : Nat) : JVal :=
  let r := rejectBook db p reviewerId now
  match r.book with
  | some b =>
    JVal.jobj (JObj.ofList
      [("success", JVal.jbool true),
        ("message", JVal.jstr (r.message.getD "")),
        ("data", bookJson r.db false true b)])
  | none => errorJson (r.message.getD "")

/-- The wire response of PUT /api/books/:id. -/
def updateBookResponse (db : DB) (p : ReqId) (body : BookBody) : JVal :=
  let r := updateBook db p body
  match r.book with
  | some b =>
    JVal.jobj (JObj.ofList
      [("success", JVal.jbool true),
        ("message", JVal.jstr (r.message.getD "")),
        ("data", bookJson r.db false true b)])
  | none => errorJson (r.message.getD "")

/-- The wire response of DELETE /api/books/:id. -/
def deleteBookResponse (db : DB) (p : ReqId) : JVal :=
  let r := deleteBook db p
  if r.status == 200 then
    JVal.jobj (JObj.ofList
      [("success", JVal.jbool true), ("message", JVal.jstr "Book deleted successfully")])
  else errorJson (r.message.getD "")

/-- The wire response of GET /api/members. -/
def getMembersResponse (db : DB) : JVal :=
  listJson ((getMembers db).map (memberJson db false))

/-- The wire response of GET /api/members/:id. -/
def getMemberResponse (db : DB) (p : ReqId) : JVal :=
  match getMember db p with
  | none => errorJson "Member not found"
  | some m =>
    JVal.jobj (JObj.ofList
      [("success", JVal.jbool true), ("data", memberJson db true m)])

/-- The wire response of POST /api/members. -/
def createMemberResponse (db : DB) (body : MemberBody) (newId : Nat) (now : Nat) : JVal :=
  let r := createMember db body newId now
  match r.member with
  | some m =>
    JVal.jobj (JObj.ofList
      [("success", JVal.jbool true), ("data", memberRawJson m)])
  | none => errorJson (r.message.getD "")

/-- The wire response of PUT /api/members/:id. -/
def updateMemberResponse (db : DB) (p : ReqId) (body : MemberBody) : JVal :=
  let r := updateMember db p body
  match r.member with
  | some m =>
    JVal.jobj (JObj.ofList
      [("success", JVal.jbool true), ("data", memberJson r.db false m)])
  | none => errorJson (r.message.getD "")

/-- The wire response of DELETE /api/members/:id. -/
def deleteMemberResponse (db : DB) (p : ReqId) : JVal :=
  let r := deleteMember db p
  if r.status == 200 then
    JVal.jobj (JObj.ofList
      [("success", JVal.jbool true), ("message", JVal.jstr "Member deleted successfully")])
  else errorJson (r.message.getD "")

/-- A concrete admin user for concrete evaluations. -/
def demoAdmin : User :=
  { id := 7, name := "Ada", email := "ada@x.com",
    password := hashPassword "password", role := Role.admin, createdAt := 0 }

/-- A concrete non-admin user for concrete evaluations. -/
def demoMemberUser : User :=
  { id := 2, name := "Mia", email := "mia@x.com",
    password := hashPassword "password", role := Role.member, createdAt := 1 }

/-- A concrete pending book for concrete evaluations. -/
def demoBookPending : Book :=
  { id := 1, title := "Dune", author := "Herbert", ISBN := "111",
    category := "SciFi", availability := true,
    approvalStatus := ApprovalStatus.pending, requestedBy := 2,
    reviewedBy := none, reviewedAt := none, createdAt := 2 }

/-- A concrete member document whose borrowedBooks references book 1. -/
def demoMemberDoc : Member :=
  { id := 3, name := "Mia", email := "mia@x.com", membershipId := "M-001",
    role := Role.member, borrowedBooks := [1], createdAt := 3 }

/-- A concrete database state for concrete evaluations. -/
def demoDB : DB :=
  { users := [demoAdmin, demoMemberUser], books := [demoBookPending],
    members := [demoMemberDoc] }

/-- A token issued to the non-admin demo user at time 0. -/
def demoMemberToken : Token := generateToken 2 0

/-- A well-formed create-book body with a fresh ISBN and no extra keys. -/
def freshBody : BookBody :=
  { title := "Hob", author := "Tolkien", ISBN := "222", category := "Fantasy",
    availability := none, approvalStatus := none }

/-- A create-book body that passes bookValidation while smuggling an
approvalStatus key through the req.body spread. -/
def sneakyBody : BookBody :=
  { title := "Hob", author := "Tolkien", ISBN := "333", category := "Fantasy",
    availability := none, approvalStatus := some ApprovalStatus.approved }

/-- A valid registration body with the role field omitted. -/
def regBody1 : RegisterBody :=
  { name := "Alice", email := "a@x.com", password := "hunter22", role := none }

/-- A valid registration body reusing the email of regBody1. -/
def regBody2 : RegisterBody :=
  { name := "Mallory", email := "a@x.com", password := "secret99",
    role := some Role.member }

/-- A valid registration body that requests the Admin role. -/
def adminRegBody : RegisterBody :=
  { name := "Eve", email := "eve@x.com", password := "secret1",
    role := some Role.admin }

/-- The empty database state. -/
def emptyDB : DB := { users := [], books := [], members := [] }

/-- A member body used only to exercise the admin gate in witnesses. -/
def demoMemberBody : MemberBody :=
  { name := "Ned"
    email := "ned@x.com"
    membershipId := "M-002"
    role := none
    borrowedBooks := none }

theorem mem_insertByDesc {α : Type} (key : α → Nat) (x a : α) (l : List α) :
    a ∈ insertByDesc key x l ↔ a = x ∨ a ∈ l := by
  induction l with
  | nil => simp [insertByDesc]
  | cons y ys ih =>
    simp only [insertByDesc]
    split
    · simp [List.mem_cons]
    · simp only [List.mem_cons, ih]
      tauto

theorem mem_sortByDesc {α : Type} (key : α → Nat) (a : α) (l : List α) :
    a ∈ sortByDesc key l ↔ a ∈ l := by
  induction l with
  | nil => simp [sortByDesc]
  | cons x xs ih => simp [sortByDesc, mem_insertByDesc, ih]

theorem find?_setBookDecision (l : List Book) (id : Nat) (st : ApprovalStatus)
    (rev t : Nat) :
    (setBookDecision l id st rev t).find? (fun b => b.id == id)
      = (l.find? (fun b => b.id == id)).map (fun b => decideBook b st rev t) := by
  induction l with
  | nil => rfl
  | cons hd tl ih =>
    by_cases h : hd.id = id
    · simp [setBookDecision, List.find?, h, decideBook]
    · have hb : (hd.id == id) = false := by simp [h]
      simp only [setBookDecision, List.map_cons] at *
      simp only [List.find?, hb, if_neg, decideBook]
      simpa [hb, decideBook] using ih

theorem findBook_after_decision (db : DB) (id : Nat) (st : ApprovalStatus)
    (rev t : Nat) :
    findBook { db with books := setBookDecision db.books id st rev t } id
      = (findBook db id).map (fun b => decideBook b st rev t) := by
  simp [findBook, find?_setBookDecision]

theorem approveBook_not_yet_approved (db : DB) (id : Nat) (b : Book)
    (rev t : Nat) (hfind : findBook db id = some b)
    (hna : b.approvalStatus ≠ ApprovalStatus.approved) :
    approveBook db (ReqId.valid id) rev t =
      { status := 200, message := some "Book approved successfully",
        book := some (decideBook b ApprovalStatus.approved rev t),
        db := { db with
                books := setBookDecision db.books id ApprovalStatus.approved rev t } } := by
  simp [approveBook, hfind, hna]

theorem approveBook_already_approved (db : DB) (id : Nat) (b : Book)
    (rev t : Nat) (hfind : findBook db id = some b)
    (ha : b.approvalStatus = ApprovalStatus.approved) :
    approveBook db (ReqId.valid id) rev t =
      { status := 400, message := some "Book is already approved",
        book := none, db := db } := by
  simp [approveBook, hfind, ha]

theorem rejectBook_not_yet_rejected (db : DB) (id : Nat) (b : Book)
    (rev t : Nat) (hfind : findBook db id = some b)
    (hnr : b.approvalStatus ≠ ApprovalStatus.rejected) :
    rejectBook db (ReqId.valid id) rev t =
      { status := 200, message := some "Book rejected successfully",
        book := some (decideBook b ApprovalStatus.rejected rev t),
        db := { db with
                books := setBookDecision db.books id ApprovalStatus.rejected rev t } } := by
  simp [rejectBook, hfind, hnr]

theorem rejectBook_already_rejected (db : DB) (id : Nat) (b : Book)
    (rev t : Nat) (hfind : findBook db id = some b)
    (hr : b.approvalStatus = ApprovalStatus.rejected) :
    rejectBook db (ReqId.valid id) rev t =
      { status := 400, message := some "Book is already rejected",
        book := none, db := db } := by
  simp [rejectBook, hfind, hr]

/-- Claim C1, counterexample: on a concrete pending book, approve
succeeds and a subsequent reject on the same id also succeeds with 200,
contradicting the claim that any second transition call fails with an
already-decided error. -/
theorem C1_counterexample :
    (approveBook demoDB (ReqId.valid 1) 7 10).status = 200 ∧
    (rejectBook (approveBook demoDB (ReqId.valid 1) 7 10).db (ReqId.valid 1) 7 11).status = 200 := by
  decide

/-- Claim C1, amended: each transition operation pre-checks only against
its own target status, not against pending.  Hence, once approve has
succeeded, a second approve fails with the already-approved 400 error and
leaves the state unchanged, and symmetrically for reject after reject;
but the opposite transition still succeeds with 200, so a decided status
is terminal only against repeats of the same decision, and
approved and rejected can overwrite one another. -/
theorem C1_amended_decision_guard (db : DB) (id : Nat) (b : Book)
    (rev1 rev2 t1 t2 : Nat)
    (hfind : findBook db id = some b)
    (hpend : b.approvalStatus = ApprovalStatus.pending) :
    ((approveBook db (ReqId.valid id) rev1 t1).status = 200 ∧
      (approveBook (approveBook db (ReqId.valid id) rev1 t1).db (ReqId.valid id) rev2 t2).status = 400 ∧
      (approveBook (approveBook db (ReqId.valid id) rev1 t1).db (ReqId.valid id) rev2 t2).db
        = (approveBook db (ReqId.valid id) rev1 t1).db ∧
      (rejectBook (approveBook db (ReqId.valid id) rev1 t1).db (ReqId.valid id) rev2 t2).status = 200) ∧
    ((rejectBook db (ReqId.valid id) rev1 t1).status = 200 ∧
      (rejectBook (rejectBook db (ReqId.valid id) rev1 t1).db (ReqId.valid id) rev2 t2).status = 400 ∧
      (rejectBook (rejectBook db (ReqId.valid id) rev1 t1).db (ReqId.valid id) rev2 t2).db
        = (rejectBook db (ReqId.valid id) rev1 t1).db ∧
      (approveBook (rejectBook db (ReqId.valid id) rev1 t1).db (ReqId.valid id) rev2 t2).status = 200) := by
  have hna : b.approvalStatus ≠ ApprovalStatus.approved := by simp [hpend]
  have hnr : b.approvalStatus ≠ ApprovalStatus.rejected := by simp [hpend]
  have hA := approveBook_not_yet_approved db id b rev1 t1 hfind hna
  have hR := rejectBook_not_yet_rejected db id b rev1 t1 hfind hnr
  have hAfind : findBook (approveBook db (ReqId.valid id) rev1 t1).db id
      = some (decideBook b ApprovalStatus.approved rev1 t1) := by
    rw [hA]
    have hd := findBook_after_decision db id ApprovalStatus.approved rev1 t1
    rw [hfind] at hd
    simpa using hd
  have hRfind : findBook (rejectBook db (ReqId.valid id) rev1 t1).db id
      = some (decideBook b ApprovalStatus.rejected rev1 t1) := by
    rw [hR]
    have hd := findBook_after_decision db id ApprovalStatus.rejected rev1 t1
    rw [hfind] at hd
    simpa using hd
  have hAapproved : (decideBook b ApprovalStatus.approved rev1 t1).approvalStatus
      = ApprovalStatus.approved := by simp [decideBook]
  have hRrejected : (decideBook b ApprovalStatus.rejected rev1 t1).approvalStatus
      = ApprovalStatus.rejected := by simp [decideBook]
  refine ⟨⟨?_, ?_, ?_, ?_⟩, ⟨?_, ?_, ?_, ?_⟩⟩
  · rw [hA]
  · rw [approveBook_already_approved _ id _ rev2 t2 hAfind hAapproved]
  · rw [approveBook_already_approved _ id _ rev2 t2 hAfind hAapproved]
  · rw [rejectBook_not_yet_rejected _ id _ rev2 t2 hAfind (by simp [hAapproved])]
  · rw [hR]
  · rw [rejectBook_already_rejected _ id _ rev2 t2 hRfind hRrejected]
  · rw [rejectBook_already_rejected _ id _ rev2 t2 hRfind hRrejected]
  · rw [approveBook_not_yet_approved _ id _ rev2 t2 hRfind (by simp [hRrejected])]

/-- Claim C1, witness: the amended theorem instantiated on the concrete
pending demo book. -/
theorem C1_witness :
    findBook demoDB 1 = some demoBookPending ∧
    demoBookPending.approvalStatus = ApprovalStatus.pending ∧
    ((approveBook demoDB (ReqId.valid 1) 7 10).status = 200 ∧
      (approveBook (approveBook demoDB (ReqId.valid 1) 7 10).db (ReqId.valid 1) 7 11).status = 400 ∧
      (approveBook (approveBook demoDB (ReqId.valid 1) 7 10).db (ReqId.valid 1) 7 11).db
        = (approveBook demoDB (ReqId.valid 1) 7 10).db ∧
      (rejectBook (approveBook demoDB (ReqId.valid 1) 7 10).db (ReqId.valid 1) 7 11).status = 200) ∧
    ((rejectBook demoDB (ReqId.valid 1) 7 10).status = 200 ∧
      (rejectBook (rejectBook demoDB (ReqId.valid 1) 7 10).db (ReqId.valid 1) 7 11).status = 400 ∧
      (rejectBook (rejectBook demoDB (ReqId.valid 1) 7 10).db (ReqId.valid 1) 7 11).db
        = (rejectBook demoDB (ReqId.valid 1) 7 10).db ∧
      (approveBook (rejectBook demoDB (ReqId.valid 1) 7 10).db (ReqId.valid 1) 7 11).status = 200) := by
  refine ⟨by decide, by decide, ?_, ?_⟩
  · exact (C1_amended_decision_guard demoDB 1 demoBookPending 7 7 10 11 (by decide) (by decide)).1
  · exact (C1_amended_decision_guard demoDB 1 demoBookPending 7 7 10 11 (by decide) (by decide)).2

/-- Claim C2, counterexample: a body that passes bookValidation while
carrying an approvalStatus key is spread into Book.create, so the book a
non-admin creates is born approved rather than pending. -/
theorem C2_counterexample :
    bookValidation sneakyBody = true ∧
    (createBook demoDB 2 sneakyBody 4 5).status = 201 ∧
    (createBook demoDB 2 sneakyBody 4 5).book.map Book.approvalStatus
      = some ApprovalStatus.approved := by
  decide

/-- Claim C2, amended: every successful book creation records
requestedBy as the caller id, and the created book has approvalStatus
pending provided the request body does not itself carry an
approvalStatus key through the req.body spread. -/
theorem C2_amended_create_defaults (db : DB) (callerId : Nat) (body : BookBody)
    (newId now : Nat)
    (h : (createBook db callerId body newId now).status = 201) :
    ∃ b, (createBook db callerId body newId now).book = some b ∧
      b.requestedBy = callerId ∧
      (body.approvalStatus = none → b.approvalStatus = ApprovalStatus.pending) := by
  by_cases hv : bookValidation body = false
  · simp [createBook, hv] at h
  · by_cases hi : isbnTaken db (trimmed body.ISBN)
    · simp [createBook, hv, hi] at h
    · refine ⟨createdBook callerId body newId now, ?_, rfl, ?_⟩
      · simp [createBook, hv, hi]
      · intro hnone
        simp [createdBook, hnone]

/-- Claim C2, witness: the amended theorem instantiated on a clean body
with no approvalStatus key. -/
theorem C2_witness :
    (createBook demoDB 2 freshBody 4 5).status = 201 ∧
    (∃ b, (createBook demoDB 2 freshBody 4 5).book = some b ∧
      b.requestedBy = 2 ∧
      (freshBody.approvalStatus = none → b.approvalStatus = ApprovalStatus.pending)) :=
  ⟨by decide, C2_amended_create_defaults demoDB 2 freshBody 4 5 (by decide)⟩

/-- Claim C3: GET /api/books returns exactly the approved books for a
non-admin caller, and every book for an admin caller. -/
theorem C3_role_filtered_listing (db : DB) (caller : User) (b : Book) :
    b ∈ getBooks db caller ↔
      b ∈ db.books ∧
        (caller.role = Role.admin ∨ b.approvalStatus = ApprovalStatus.approved) := by
  unfold getBooks
  by_cases h : caller.role = Role.admin
  · simp [h, mem_sortByDesc]
  · simp [h, mem_sortByDesc, List.mem_filter]

/-- Claim C4: on GET /api/books/:id a malformed id and a missing id both
yield 404 for every caller, and an existing non-approved book yields 403
for a non-admin caller. -/
theorem C4_single_book_access (db : DB) (caller : User) (badId goodId : Nat)
    (b : Book) :
    (getBook db ReqId.malformed caller).status = 404 ∧
    (findBook db badId = none → (getBook db (ReqId.valid badId) caller).status = 404) ∧
    (findBook db goodId = some b → caller.role ≠ Role.admin →
      b.approvalStatus ≠ ApprovalStatus.approved →
      (getBook db (ReqId.valid goodId) caller).status = 403) := by
  refine ⟨rfl, ?_, ?_⟩
  · intro h
    simp [getBook, h]
  · intro h hr hs
    simp [getBook, h, hr, hs]

/-- Claim C4, witness: the theorem instantiated on the demo state with a
missing id 99 and the pending book 1 requested by the non-admin user. -/
theorem C4_witness :
    findBook demoDB 99 = none ∧
    findBook demoDB 1 = some demoBookPending ∧
    demoMemberUser.role ≠ Role.admin ∧
    demoBookPending.approvalStatus ≠ ApprovalStatus.approved ∧
    (getBook demoDB ReqId.malformed demoMemberUser).status = 404 ∧
    (getBook demoDB (ReqId.valid 99) demoMemberUser).status = 404 ∧
    (getBook demoDB (ReqId.valid 1) demoMemberUser).status = 403 := by
  refine ⟨by decide, by decide, by decide, by decide, ?_, ?_, ?_⟩
  · exact (C4_single_book_access demoDB demoMemberUser 99 1 demoBookPending).1
  · exact (C4_single_book_access demoDB demoMemberUser 99 1 demoBookPending).2.1 (by decide)
  · exact (C4_single_book_access demoDB demoMemberUser 99 1 demoBookPending).2.2
      (by decide) (by decide) (by decide)

theorem adminGate_non_admin (db : DB) (tok : Option Token) (now : Nat)
    (handler : User → Nat × DB) (u : User)
    (hp : protect db tok now = Except.ok u) (hr : u.role ≠ Role.admin) :
    adminGate db tok now handler = (403, db) := by
  simp [adminGate, hp, hr]

/-- Claim C5: with a token that authenticates to a user whose current
role is not Admin, every admin-only mutation route answers 403 and
returns the stored state unchanged; the decision depends only on the
role re-resolved from the users collection, not on anything else about
the token. -/
theorem C5_non_admin_mutations_forbidden (db : DB) (tok : Option Token)
    (now : Nat) (p : ReqId) (bbody : BookBody) (mbody : MemberBody)
    (newId : Nat) (role : Role) (u : User)
    (hp : protect db tok now = Except.ok u) (hr : u.role ≠ Role.admin) :
    updateBookRoute db tok now p bbody = (403, db) ∧
    deleteBookRoute db tok now p = (403, db) ∧
    approveBookRoute db tok now p = (403, db) ∧
    rejectBookRoute db tok now p = (403, db) ∧
    createMemberRoute db tok now mbody newId = (403, db) ∧
    updateMemberRoute db tok now p mbody = (403, db) ∧
    deleteMemberRoute db tok now p = (403, db) ∧
    updateUserRoleRoute db tok now p role = (403, db) ∧
    deleteUserRoute db tok now p = (403, db) := by
  refine ⟨?_, ?_, ?_, ?_, ?_, ?_, ?_, ?_, ?_⟩ <;>
    exact adminGate_non_admin db tok now _ u hp hr

/-- Claim C5, witness: the theorem instantiated on the demo state with
the non-admin demo user and a token issued to them. -/
theorem C5_witness :
    protect demoDB (some demoMemberToken) 5 = Except.ok demoMemberUser ∧
    demoMemberUser.role ≠ Role.admin ∧
    updateBookRoute demoDB (some demoMemberToken) 5 (ReqId.valid 1) freshBody = (403, demoDB) ∧
    deleteBookRoute demoDB (some demoMemberToken) 5 (ReqId.valid 1) = (403, demoDB) ∧
    approveBookRoute demoDB (some demoMemberToken) 5 (ReqId.valid 1) = (403, demoDB) ∧
    rejectBookRoute demoDB (some demoMemberToken) 5 (ReqId.valid 1) = (403, demoDB) ∧
    createMemberRoute demoDB (some demoMemberToken) 5 demoMemberBody 9 = (403, demoDB) ∧
    updateMemberRoute demoDB (some demoMemberToken) 5 (ReqId.valid 1) demoMemberBody = (403, demoDB) ∧
    deleteMemberRoute demoDB (some demoMemberToken) 5 (ReqId.valid 1) = (403, demoDB) ∧
    updateUserRoleRoute demoDB (some demoMemberToken) 5 (ReqId.valid 1) Role.member = (403, demoDB) ∧
    deleteUserRoute demoDB (some demoMemberToken) 5 (ReqId.valid 1) = (403, demoDB) := by
  have hp : protect demoDB (some demoMemberToken) 5 = Except.ok demoMemberUser := by rfl
  have hr : demoMemberUser.role ≠ Role.admin := by decide
  have h := C5_non_admin_mutations_forbidden demoDB (some demoMemberToken) 5
    (ReqId.valid 1) freshBody demoMemberBody 9 Role.member demoMemberUser hp hr
  exact ⟨hp, hr, h.1, h.2.1, h.2.2.1, h.2.2.2.1, h.2.2.2.2.1, h.2.2.2.2.2.1,
    h.2.2.2.2.2.2.1, h.2.2.2.2.2.2.2.1, h.2.2.2.2.2.2.2.2⟩

/-- Claim C6: the public registration endpoint applies no authorization
check to the requested role: on the empty store, an unauthenticated
registration request carrying role Admin succeeds with 201, creates a
user whose role is Admin, and returns a token that verifies to that
id of that user. -/
theorem C6_public_admin_registration :
    (register emptyDB adminRegBody 1 0).status = 201 ∧
    (register emptyDB adminRegBody 1 0).user.map User.role = some Role.admin ∧
    ((register emptyDB adminRegBody 1 0).token.bind (fun t => verifyToken t 0))
      = some 1 := by
  decide

theorem register_duplicate (db : DB) (body : RegisterBody) (newId now : Nat)
    (hv : registerValidation body = true)
    (hd : emailTaken db (lowered (trimmed body.email)) = true) :
    (register db body newId now).status = 400 ∧
    (register db body newId now).db = db := by
  cases hfe : emailTaken db (trimmed body.email) with
  | true => constructor <;> simp [register, hv, hfe]
  | false => constructor <;> simp [register, hv, hfe, hd]

/-- Claim C7: a valid registration whose role field is omitted creates a
Member, and a second registration reusing the same email string fails
with 400 and leaves the users collection unchanged. -/
theorem C7_default_role_and_duplicate_email (db : DB) (b1 b2 : RegisterBody)
    (id1 id2 t1 t2 : Nat)
    (hv1 : registerValidation b1 = true)
    (hf1 : emailTaken db (trimmed b1.email) = false)
    (hf2 : emailTaken db (lowered (trimmed b1.email)) = false)
    (hrole : b1.role = none)
    (hv2 : registerValidation b2 = true)
    (hsame : b2.email = b1.email) :
    (register db b1 id1 t1).status = 201 ∧
    (register db b1 id1 t1).user.map User.role = some Role.member ∧
    (register (register db b1 id1 t1).db b2 id2 t2).status = 400 ∧
    (register (register db b1 id1 t1).db b2 id2 t2).db
      = (register db b1 id1 t1).db := by
  have hr1 : register db b1 id1 t1 =
      { status := 201
        message := none
        token := some (generateToken id1 t1)
        user := some (registeredUser b1 id1 t1)
        db := { db with users := db.users ++ [registeredUser b1 id1 t1] } } := by
    simp [register, hv1, hf1, hf2]
  have hdup : emailTaken (register db b1 id1 t1).db (lowered (trimmed b2.email))
      = true := by
    rw [hr1]
    simp [emailTaken, registeredUser, hsame]
  refine ⟨by rw [hr1], ?_, ?_, ?_⟩
  · rw [hr1]
    simp [registeredUser, hrole]
  · exact (register_duplicate (register db b1 id1 t1).db b2 id2 t2 hv2 hdup).1
  · exact (register_duplicate (register db b1 id1 t1).db b2 id2 t2 hv2 hdup).2

/-- Claim C7, witness: the theorem instantiated on the empty store with
a role-omitting registration and a second registration reusing the same
email. -/
theorem C7_witness :
    registerValidation regBody1 = true ∧
    regBody1.role = none ∧
    registerValidation regBody2 = true ∧
    regBody2.email = regBody1.email ∧
    (register emptyDB regBody1 1 0).status = 201 ∧
    (register emptyDB regBody1 1 0).user.map User.role = some Role.member ∧
    (register (register emptyDB regBody1 1 0).db regBody2 2 9).status = 400 ∧
    (register (register emptyDB regBody1 1 0).db regBody2 2 9).db
      = (register emptyDB regBody1 1 0).db := by
  have h := C7_default_role_and_duplicate_email emptyDB regBody1 regBody2 1 2 0 9
    (by decide) (by decide) (by decide) (by decide) (by decide) (by decide)
  exact ⟨by decide, by decide, by decide, by decide, h.1, h.2.1, h.2.2.1, h.2.2.2⟩

/-- Claim C8: a successful registration returns exactly the token issued
to the created user id, that token verifies back to the same id, and the
validity window of every issued token is exactly 30 days. -/
theorem C8_register_token_roundtrip (db : DB) (body : RegisterBody)
    (newId now : Nat)
    (hv : registerValidation body = true)
    (hf1 : emailTaken db (trimmed body.email) = false)
    (hf2 : emailTaken db (lowered (trimmed body.email)) = false) :
    (register db body newId now).status = 201 ∧
    (register db body newId now).token = some (generateToken newId now) ∧
    (register db body newId now).user.map User.id = some newId ∧
    verifyToken (generateToken newId now) now = some newId ∧
    (generateToken newId now).exp
      = (generateToken newId now).iat + 30 * 24 * 60 * 60 := by
  refine ⟨?_, ?_, ?_, ?_, ?_⟩
  · simp [register, hv, hf1, hf2]
  · simp [register, hv, hf1, hf2]
  · simp [register, hv, hf1, hf2, registeredUser]
  · have h : now < now + thirtyDaysInSeconds := by
      have h0 : 0 < thirtyDaysInSeconds := by norm_num [thirtyDaysInSeconds]
      omega
    simp [verifyToken, generateToken, h]
  · norm_num [generateToken, thirtyDaysInSeconds]

/-- Claim C8, witness: the theorem instantiated on the empty store. -/
theorem C8_witness :
    registerValidation regBody1 = true ∧
    (register emptyDB regBody1 1 0).status = 201 ∧
    (register emptyDB regBody1 1 0).token = some (generateToken 1 0) ∧
    (register emptyDB regBody1 1 0).user.map User.id = some 1 ∧
    verifyToken (generateToken 1 0) 0 = some 1 ∧
    (generateToken 1 0).exp = (generateToken 1 0).iat + 30 * 24 * 60 * 60 := by
  have h := C8_register_token_roundtrip emptyDB regBody1 1 0
    (by decide) (by decide) (by decide)
  exact ⟨by decide, h.1, h.2.1, h.2.2.1, h.2.2.2.1, h.2.2.2.2⟩

/-- Claim C10: deleting a member never touches the books collection,
deleting a book never touches the members collection, and after a book
referenced by the borrowedBooks of some member is deleted, that reference
remains in place even though the book id no longer resolves. -/
theorem C10_delete_no_cascade (db : DB) (p q : ReqId) (m : Member) (bid : Nat)
    (bk : Book)
    (hm : m ∈ db.members) (hb : bid ∈ m.borrowedBooks)
    (hbk : findBook db bid = some bk) :
    (deleteMember db p).db.books = db.books ∧
    (deleteBook db q).db.members = db.members ∧
    findBook (deleteBook db (ReqId.valid bid)).db bid = none ∧
    m ∈ (deleteBook db (ReqId.valid bid)).db.members ∧
    bid ∈ m.borrowedBooks := by
  have h1 : (deleteMember db p).db.books = db.books := by
    cases p with
    | malformed => rfl
    | valid i =>
      cases h : findMember db i <;> simp [deleteMember, h]
  have h2 : ∀ r : ReqId, (deleteBook db r).db.members = db.members := by
    intro r
    cases r with
    | malformed => rfl
    | valid i =>
      cases h : findBook db i <;> simp [deleteBook, h]
  have h3 : findBook (deleteBook db (ReqId.valid bid)).db bid = none := by
    simp only [deleteBook, hbk]
    simp only [findBook]
    rw [List.find?_eq_none]
    intro a ha
    have hfa := (List.mem_filter.mp ha).2
    simp only [Bool.not_eq_eq_eq_not, Bool.not_true] at hfa
    simp [hfa]
  refine ⟨h1, h2 q, h3, ?_, hb⟩
  rw [h2 (ReqId.valid bid)]
  exact hm

/-- Claim C10, witness: the theorem instantiated on the demo state whose
member document borrows the demo book. -/
theorem C10_witness :
    demoMemberDoc ∈ demoDB.members ∧
    (1 : Nat) ∈ demoMemberDoc.borrowedBooks ∧
    findBook demoDB 1 = some demoBookPending ∧
    (deleteMember demoDB (ReqId.valid 3)).db.books = demoDB.books ∧
    (deleteBook demoDB (ReqId.valid 1)).db.members = demoDB.members ∧
    findBook (deleteBook demoDB (ReqId.valid 1)).db 1 = none ∧
    demoMemberDoc ∈ (deleteBook demoDB (ReqId.valid 1)).db.members ∧
    (1 : Nat) ∈ demoMemberDoc.borrowedBooks := by
  have h := C10_delete_no_cascade demoDB (ReqId.valid 3) (ReqId.valid 1)
    demoMemberDoc 1 demoBookPending (by decide) (by decide) (by decide)
  exact ⟨by decide, by decide, by decide, h.1, h.2.1, h.2.2.1, h.2.2.2.1, h.2.2.2.2⟩

theorem JList_hasKey_ofList (l : List JVal)
    (h : ∀ j ∈ l, JVal.hasKey "password" j = false) :
    JList.hasKey "password" (JList.ofList l) = false := by
  induction l with
  | nil => simp [JList.ofList, JList.hasKey]
  | cons x xs ih =>
    have hx := h x (List.mem_cons_self x xs)
    have hxs := ih (fun j hj => h j (List.mem_cons_of_mem x hj))
    simp [JList.ofList, JList.hasKey, hx, hxs]

theorem hasKey_jobj (k : String) (fs : JObj) :
    JVal.hasKey k (JVal.jobj fs) = JObj.hasKey k fs := by
  simp [JVal.hasKey]

theorem hasKey_jarr (k : String) (xs : JList) :
    JVal.hasKey k (JVal.jarr xs) = JList.hasKey k xs := by
  simp [JVal.hasKey]

theorem hasKey_jstr (k : String) (s : String) :
    JVal.hasKey k (JVal.jstr s) = false := by
  simp [JVal.hasKey]

theorem hasKey_jnum (k : String) (n : Nat) :
    JVal.hasKey k (JVal.jnum n) = false := by
  simp [JVal.hasKey]

theorem hasKey_jbool (k : String) (b : Bool) :
    JVal.hasKey k (JVal.jbool b) = false := by
  simp [JVal.hasKey]

theorem hasKey_jnull (k : String) :
    JVal.hasKey k JVal.jnull = false := by
  simp [JVal.hasKey]

theorem JObj_hasKey_nil (k : String) :
    JObj.hasKey k JObj.nil = false := by
  simp [JObj.hasKey]

theorem JObj_hasKey_cons (k key : String) (v : JVal) (tl : JObj) :
    JObj.hasKey k (JObj.cons key v tl)
      = (key == k || JVal.hasKey k v || JObj.hasKey k tl) := by
  simp [JObj.hasKey]

theorem errorJson_no_password (msg : String) :
    JVal.hasKey "password" (errorJson msg) = false := by
  simp [errorJson, JObj.ofList, JVal.hasKey, JObj.hasKey]

theorem listJson_no_password (items : List JVal)
    (h : ∀ j ∈ items, JVal.hasKey "password" j = false) :
    JVal.hasKey "password" (listJson items) = false := by
  simp [listJson, JObj.ofList, JVal.hasKey, JObj.hasKey, JList_hasKey_ofList items h]

theorem authUserJson_no_password (u : User) :
    JVal.hasKey "password" (authUserJson u) = false := by
  simp [authUserJson, JObj.ofList, JVal.hasKey, JObj.hasKey]

theorem profileUserJson_no_password (u : User) :
    JVal.hasKey "password" (profileUserJson u) = false := by
  simp [profileUserJson, JObj.ofList, JVal.hasKey, JObj.hasKey]

theorem userNoPasswordJson_no_password (u : User) :
    JVal.hasKey "password" (userNoPasswordJson u) = false := by
  simp [userNoPasswordJson, JObj.ofList, JVal.hasKey, JObj.hasKey]

theorem userRefJson_no_password (db : DB) (w : Bool) (id : Nat) :
    JVal.hasKey "password" (userRefJson db w id) = false := by
  unfold userRefJson
  cases findUser db id with
  | none => simp [JVal.hasKey]
  | some u => cases w <;> simp [JObj.ofList, JVal.hasKey, JObj.hasKey]

theorem optIdJson_no_password (o : Option Nat) :
    JVal.hasKey "password" (optIdJson o) = false := by
  cases o <;> simp [optIdJson, JVal.hasKey]

theorem optTimeJson_no_password (o : Option Nat) :
    JVal.hasKey "password" (optTimeJson o) = false := by
  cases o <;> simp [optTimeJson, JVal.hasKey]

theorem bookJson_no_password (db : DB) (r p : Bool) (b : Book) :
    JVal.hasKey "password" (bookJson db r p b) = false := by
  unfold bookJson
  cases p with
  | false =>
    simp [JObj.ofList, JVal.hasKey, JObj.hasKey, userRefJson_no_password,
      optIdJson_no_password, optTimeJson_no_password]
  | true =>
    cases hb : b.reviewedBy <;>
      simp [hb, JObj.ofList, JVal.hasKey, JObj.hasKey, userRefJson_no_password,
        optIdJson_no_password, optTimeJson_no_password]

theorem borrowedBookJson_no_password (db : DB) (w : Bool) (id : Nat) :
    JVal.hasKey "password" (borrowedBookJson db w id) = false := by
  unfold borrowedBookJson
  cases findBook db id with
  | none => simp [JVal.hasKey]
  | some b => cases w <;> simp [JObj.ofList, JVal.hasKey, JObj.hasKey]

theorem memberJson_no_password (db : DB) (w : Bool) (m : Member) :
    JVal.hasKey "password" (memberJson db w m) = false := by
  have hlist : JList.hasKey "password"
      (JList.ofList (m.borrowedBooks.map (borrowedBookJson db w))) = false := by
    refine JList_hasKey_ofList _ (fun j hj => ?_)
    rcases List.mem_map.mp hj with ⟨a, _, rfl⟩
    exact borrowedBookJson_no_password db w a
  simp [memberJson, JObj.ofList, JVal.hasKey, JObj.hasKey, hlist]

theorem memberRawJson_no_password (m : Member) :
    JVal.hasKey "password" (memberRawJson m) = false := by
  have hlist : JList.hasKey "password"
      (JList.ofList (m.borrowedBooks.map JVal.jnum)) = false := by
    refine JList_hasKey_ofList _ (fun j hj => ?_)
    rcases List.mem_map.mp hj with ⟨a, _, rfl⟩
    simp [JVal.hasKey]
  simp [memberRawJson, JObj.ofList, JVal.hasKey, JObj.hasKey, hlist]

theorem registerResponse_no_password (db : DB) (body : RegisterBody)
    (newId now : Nat) :
    JVal.hasKey "password" (registerResponse db body newId now) = false := by
  simp only [registerResponse]
  cases (register db body newId now).user <;>
    cases (register db body newId now).token <;>
      simp [errorJson_no_password, authUserJson_no_password, JObj.ofList,
        hasKey_jobj, hasKey_jarr, hasKey_jstr, hasKey_jnum, hasKey_jbool, hasKey_jnull, JObj_hasKey_cons, JObj_hasKey_nil]

theorem loginResponse_no_password (db : DB) (email password : String)
    (now : Nat) :
    JVal.hasKey "password" (loginResponse db email password now) = false := by
  simp only [loginResponse]
  cases (login db email password now).user <;>
    cases (login db email password now).token <;>
      simp [errorJson_no_password, authUserJson_no_password, JObj.ofList,
        hasKey_jobj, hasKey_jarr, hasKey_jstr, hasKey_jnum, hasKey_jbool, hasKey_jnull, JObj_hasKey_cons, JObj_hasKey_nil]

theorem profileResponse_no_password (u : User) :
    JVal.hasKey "password" (profileResponse u) = false := by
  simp [profileResponse, JObj.ofList, hasKey_jobj, hasKey_jarr, hasKey_jstr, hasKey_jnum, hasKey_jbool, hasKey_jnull, JObj_hasKey_cons, JObj_hasKey_nil,
    profileUserJson_no_password]

theorem getAllUsersResponse_no_password (db : DB) :
    JVal.hasKey "password" (getAllUsersResponse db) = false := by
  refine listJson_no_password _ (fun j hj => ?_)
  rcases List.mem_map.mp hj with ⟨u, _, rfl⟩
  exact userNoPasswordJson_no_password u

theorem getUserByIdResponse_no_password (db : DB) (p : ReqId) :
    JVal.hasKey "password" (getUserByIdResponse db p) = false := by
  simp only [getUserByIdResponse]
  cases getUserById db p <;>
    simp [errorJson_no_password, userNoPasswordJson_no_password, JObj.ofList,
      hasKey_jobj, hasKey_jarr, hasKey_jstr, hasKey_jnum, hasKey_jbool, hasKey_jnull, JObj_hasKey_cons, JObj_hasKey_nil]

theorem updateUserRoleResponse_no_password (db : DB) (caller : User) (p : ReqId)
    (role : Role) :
    JVal.hasKey "password" (updateUserRoleResponse db caller p role) = false := by
  simp only [updateUserRoleResponse]
  cases (updateUserRole db caller p role).user <;>
    simp [errorJson_no_password, authUserJson_no_password, JObj.ofList,
      hasKey_jobj, hasKey_jarr, hasKey_jstr, hasKey_jnum, hasKey_jbool, hasKey_jnull, JObj_hasKey_cons, JObj_hasKey_nil]

theorem deleteUserResponse_no_password (db : DB) (caller : User) (p : ReqId) :
    JVal.hasKey "password" (deleteUserResponse db caller p) = false := by
  simp only [deleteUserResponse]
  cases h : (deleteUser db caller p).status == 200 <;>
    simp [h, errorJson_no_password, JObj.ofList, hasKey_jobj, hasKey_jarr, hasKey_jstr, hasKey_jnum, hasKey_jbool, hasKey_jnull, JObj_hasKey_cons, JObj_hasKey_nil]

theorem getBooksResponse_no_password (db : DB) (caller : User) :
    JVal.hasKey "password" (getBooksResponse db caller) = false := by
  refine listJson_no_password _ (fun j hj => ?_)
  rcases List.mem_map.mp hj with ⟨b, _, rfl⟩
  exact bookJson_no_password db false (caller.role == Role.admin) b

theorem getPendingBooksResponse_no_password (db : DB) :
    JVal.hasKey "password" (getPendingBooksResponse db) = false := by
  refine listJson_no_password _ (fun j hj => ?_)
  rcases List.mem_map.mp hj with ⟨b, _, rfl⟩
  exact bookJson_no_password db true false b

theorem getBookResponse_no_password (db : DB) (p : ReqId) (caller : User) :
    JVal.hasKey "password" (getBookResponse db p caller) = false := by
  simp only [getBookResponse]
  cases (getBook db p caller).book <;>
    simp [errorJson_no_password, bookJson_no_password, JObj.ofList,
      hasKey_jobj, hasKey_jarr, hasKey_jstr, hasKey_jnum, hasKey_jbool, hasKey_jnull, JObj_hasKey_cons, JObj_hasKey_nil]

theorem createBookResponse_no_password (db : DB) (callerId : Nat)
    (body : BookBody) (newId now : Nat) :
    JVal.hasKey "password" (createBookResponse db callerId body newId now) = false := by
  simp only [createBookResponse]
  cases (createBook db callerId body newId now).book <;>
    simp [errorJson_no_password, bookJson_no_password, JObj.ofList,
      hasKey_jobj, hasKey_jarr, hasKey_jstr, hasKey_jnum, hasKey_jbool, hasKey_jnull, JObj_hasKey_cons, JObj_hasKey_nil]

theorem approveBookResponse_no_password (db : DB) (p : ReqId)
    (reviewerId now : Nat) :
    JVal.hasKey "password" (approveBookResponse db p reviewerId now) = false := by
  simp only [approveBookResponse]
  cases (approveBook db p reviewerId now).book <;>
    simp [errorJson_no_password, bookJson_no_password, JObj.ofList,
      hasKey_jobj, hasKey_jarr, hasKey_jstr, hasKey_jnum, hasKey_jbool, hasKey_jnull, JObj_hasKey_cons, JObj_hasKey_nil]

theorem rejectBookResponse_no_password (db : DB) (p : ReqId)
    (reviewerId now : Nat) :
    JVal.hasKey "password" (rejectBookResponse db p reviewerId now) = false := by
  simp only [rejectBookResponse]
  cases (rejectBook db p reviewerId now).book <;>
    simp [errorJson_no_password, bookJson_no_password, JObj.ofList,
      hasKey_jobj, hasKey_jarr, hasKey_jstr, hasKey_jnum, hasKey_jbool, hasKey_jnull, JObj_hasKey_cons, JObj_hasKey_nil]

theorem updateBookResponse_no_password (db : DB) (p : ReqId) (body : BookBody) :
    JVal.hasKey "password" (updateBookResponse db p body) = false := by
  simp only [updateBookResponse]
  cases (updateBook db p body).book <;>
    simp [errorJson_no_password, bookJson_no_password, JObj.ofList,
      hasKey_jobj, hasKey_jarr, hasKey_jstr, hasKey_jnum, hasKey_jbool, hasKey_jnull, JObj_hasKey_cons, JObj_hasKey_nil]

theorem deleteBookResponse_no_password (db : DB) (p : ReqId) :
    JVal.hasKey "password" (deleteBookResponse db p) = false := by
  simp only [deleteBookResponse]
  cases h : (deleteBook db p).status == 200 <;>
    simp [h, errorJson_no_password, JObj.ofList, hasKey_jobj, hasKey_jarr, hasKey_jstr, hasKey_jnum, hasKey_jbool, hasKey_jnull, JObj_hasKey_cons, JObj_hasKey_nil]

theorem getMembersResponse_no_password (db : DB) :
    JVal.hasKey "password" (getMembersResponse db) = false := by
  refine listJson_no_password _ (fun j hj => ?_)
  rcases List.mem_map.mp hj with ⟨m, _, rfl⟩
  exact memberJson_no_password db false m

theorem getMemberResponse_no_password (db : DB) (p : ReqId) :
    JVal.hasKey "password" (getMemberResponse db p) = false := by
  simp only [getMemberResponse]
  cases getMember db p <;>
    simp [errorJson_no_password, memberJson_no_password, JObj.ofList,
      hasKey_jobj, hasKey_jarr, hasKey_jstr, hasKey_jnum, hasKey_jbool, hasKey_jnull, JObj_hasKey_cons, JObj_hasKey_nil]

theorem createMemberResponse_no_password (db : DB) (body : MemberBody)
    (newId now : Nat) :
    JVal.hasKey "password" (createMemberResponse db body newId now) = false := by
  simp only [createMemberResponse]
  cases (createMember db body newId now).member <;>
    simp [errorJson_no_password, memberRawJson_no_password, JObj.ofList,
      hasKey_jobj, hasKey_jarr, hasKey_jstr, hasKey_jnum, hasKey_jbool, hasKey_jnull, JObj_hasKey_cons, JObj_hasKey_nil]

theorem updateMemberResponse_no_password (db : DB) (p : ReqId)
    (body : MemberBody) :
    JVal.hasKey "password" (updateMemberResponse db p body) = false := by
  simp only [updateMemberResponse]
  cases (updateMember db p body).member <;>
    simp [errorJson_no_password, memberJson_no_password, JObj.ofList,
      hasKey_jobj, hasKey_jarr, hasKey_jstr, hasKey_jnum, hasKey_jbool, hasKey_jnull, JObj_hasKey_cons, JObj_hasKey_nil]

theorem deleteMemberResponse_no_password (db : DB) (p : ReqId) :
    JVal.hasKey "password" (deleteMemberResponse db p) = false := by
  simp only [deleteMemberResponse]
  cases h : (deleteMember db p).status == 200 <;>
    simp [h, errorJson_no_password, JObj.ofList, hasKey_jobj, hasKey_jarr, hasKey_jstr, hasKey_jnum, hasKey_jbool, hasKey_jnull, JObj_hasKey_cons, JObj_hasKey_nil]

/-- Claim C9: no response of the external interface carries a password
key anywhere in its JSON payload: the stored hash is excluded from every
external representation of a user, across register, login, profile, user
listing and retrieval, role update, user deletion, and every book and
member operation. -/
theorem C9_password_never_serialised (db : DB) (rbody : RegisterBody)
    (newId now : Nat) (email password : String) (u caller : User) (p : ReqId)
    (bbody : BookBody) (mbody : MemberBody) (callerId reviewerId : Nat)
    (role : Role) :
    JVal.hasKey "password" (registerResponse db rbody newId now) = false ∧
    JVal.hasKey "password" (loginResponse db email password now) = false ∧
    JVal.hasKey "password" (profileResponse u) = false ∧
    JVal.hasKey "password" (getAllUsersResponse db) = false ∧
    JVal.hasKey "password" (getUserByIdResponse db p) = false ∧
    JVal.hasKey "password" (updateUserRoleResponse db caller p role) = false ∧
    JVal.hasKey "password" (deleteUserResponse db caller p) = false ∧
    JVal.hasKey "password" (getBooksResponse db caller) = false ∧
    JVal.hasKey "password" (getPendingBooksResponse db) = false ∧
    JVal.hasKey "password" (getBookResponse db p caller) = false ∧
    JVal.hasKey "password" (createBookResponse db callerId bbody newId now) = false ∧
    JVal.hasKey "password" (approveBookResponse db p reviewerId now) = false ∧
    JVal.hasKey "password" (rejectBookResponse db p reviewerId now) = false ∧
    JVal.hasKey "password" (updateBookResponse db p bbody) = false ∧
    JVal.hasKey "password" (deleteBookResponse db p) = false ∧
    JVal.hasKey "password" (getMembersResponse db) = false ∧
    JVal.hasKey "password" (getMemberResponse db p) = false ∧
    JVal.hasKey "password" (createMemberResponse db mbody newId now) = false ∧
    JVal.hasKey "password" (updateMemberResponse db p mbody) = false ∧
    JVal.hasKey "password" (deleteMemberResponse db p) = false :=
  ⟨registerResponse_no_password db rbody newId now,
    loginResponse_no_password db email password now,
    profileResponse_no_password u,
    getAllUsersResponse_no_password db,
    getUserByIdResponse_no_password db p,
    updateUserRoleResponse_no_password db caller p role,
    deleteUserResponse_no_password db caller p,
    getBooksResponse_no_password db caller,
    getPendingBooksResponse_no_password db,
    getBookResponse_no_password db p caller,
    createBookResponse_no_password db callerId bbody newId now,
    approveBookResponse_no_password db p reviewerId now,
    rejectBookResponse_no_password db p reviewerId now,
    updateBookResponse_no_password db p bbody,
    deleteBookResponse_no_password db p,
    getMembersResponse_no_password db,
    getMemberResponse_no_password db p,
    createMemberResponse_no_password db mbody newId now,
    updateMemberResponse_no_password db p mbody,
    deleteMemberResponse_no_password db p⟩

end LibraryMS
